import Mathlib

/-!
# Single-fetch request orchestration: shallow embedding and verification

This file embeds the client-side single-fetch data strategy of the repository
(`getSingleFetchDataStrategy` and its helpers `stripIndexParam`,
`addRevalidationParam`, `singleFetchUrl`, `fetchAndDecode`,
`unwrapSingleFetchResult`) into Lean and proves the specified properties
about it.

Modelling conventions:
* JS `URL` objects are modelled by the `Url` structure: an origin, a pathname
  and an ordered list of query parameters (`URLSearchParams` preserves
  insertion order and allows repeated keys, so a list of key/value pairs is
  the faithful model).  The source functions pass `url.href` strings around
  and re-parse them with `new URL`; since parse/serialize round-trips, the
  embedding composes the transforms directly on the structured form.
* Opaque JS values are modelled by the inductive type `Val`.  `Val.jsError`
  models a thrown `Error` carrying a message; `Val.errorResponseImpl` models
  `ErrorResponseImpl` instances of the router package (an external
  dependency: a plain record of status / statusText / data / internal).
* Promise-based control flow is single-threaded and cooperative in JS: each
  `singleFetch` invocation runs synchronously from entry through the
  `if (!singleFetchPromise) singleFetchPromise = makeSingleFetchCall()`
  check-and-assign (no `await` separates the test from the assignment), so
  the check-and-set is atomic.  A navigation's loader phase is therefore
  modelled as an arbitrary finite sequence of invocations (the subset of
  matched routes that actually call `serverLoader`, in call order) acting on
  an explicit state holding the memo cell and an instrumentation counter of
  issued network calls.
-/

namespace Remix

/-- A parsed URL: origin (scheme, host, port), pathname, and the ordered
multiset of query parameters.  Mirrors the observable state of a JS `URL`. -/
structure Url where
  origin : String
  pathname : String
  query : List (String × String)
deriving DecidableEq, Repr

/-- `URLSearchParams.getAll(name)`: the values of all entries with the given
key, in order. -/
def getAllParams : List (String × String) → String → List String
  | [], _ => []
  | (k, v) :: rest, name =>
    if k = name then v :: getAllParams rest name else getAllParams rest name

/-- `URLSearchParams.delete(name)`: remove every entry with the given key,
preserving the order of the remaining entries. -/
def deleteParam : List (String × String) → String → List (String × String)
  | [], _ => []
  | (k, v) :: rest, name =>
    if k = name then deleteParam rest name else (k, v) :: deleteParam rest name

/-- `URLSearchParams.set(name, value)`: replace the first entry with the
given key (deleting any later ones), or append a new entry at the end if the
key is absent. -/
def setParam : List (String × String) → String → String → List (String × String)
  | [], name, value => [(name, value)]
  | (k, v) :: rest, name, value =>
    if k = name then (name, value) :: deleteParam rest name
    else (k, v) :: setParam rest name value

/-- The WHATWG `URL.pathname` setter for special (http/https) schemes
normalizes a path that does not begin with `/` by prepending one (sufficient
for paths needing no percent-encoding, which is all this code produces). -/
def normalizePath (p : String) : String :=
  if p.data.head? = some '/' then p else "/" ++ p

/-- Assigning `url.pathname = p` on a JS `URL`: only the pathname changes,
after setter normalization. -/
def setPathname (u : Url) (p : String) : Url :=
  { u with pathname := normalizePath p }

/-- `stripIndexParam` (source lines 83–98): read all values of the
multi-valued `index` query parameter, delete them, and re-append only the
truthy (non-empty) values in their original relative order.  The JS
truthiness test `if (indexValue)` on a string holds exactly for non-empty
strings. -/
def stripIndexParam (u : Url) : Url :=
  let indexValues := getAllParams u.query "index"
  let query := deleteParam u.query "index"
  let indexValuesToKeep := indexValues.filter (fun v => v != "")
  { u with query := indexValuesToKeep.foldl (fun q v => q ++ [("index", v)]) query }

/-- One entry of the build manifest's route table: whether the route
declares a server `loader`. -/
structure ManifestRoute where
  hasLoader : Bool
deriving DecidableEq, Repr

/-- The assets manifest, restricted to the field the strategy reads:
`manifest.routes[id].hasLoader`.  Matched route ids are always present in
the manifest, so the lookup is modelled as total. -/
structure AssetsManifest where
  routes : String → ManifestRoute

/-- A loaded route module, restricted to the field the strategy reads:
whether the module declares a (truthy) `shouldRevalidate` function. -/
structure RouteModule where
  shouldRevalidate : Bool
deriving DecidableEq, Repr

/-- `routeModules`: registry from route id to its loaded module, `none` when
the module is not (yet) loaded — the source guards the lookup with `?.`. -/
abbrev RouteModules := String → Option RouteModule

/-- The slice of a `DataStrategyMatch` the strategy reads: the route id and
the framework's precomputed `shouldLoad` decision. -/
structure RouteInfo where
  id : String
deriving DecidableEq, Repr

/-- One matched route handed to the strategy by the router. -/
structure DataStrategyMatch where
  route : RouteInfo
  shouldLoad : Bool
deriving DecidableEq, Repr

/-- The local `genRouteIds` closure of `addRevalidationParam` (source lines
126–127): keep only ids whose manifest entry declares a loader and join them
with commas. -/
def genRouteIds (manifest : AssetsManifest) (arr : List String) : String :=
  String.intercalate "," (arr.filter (fun id => (manifest.routes id).hasLoader))

/-- `addRevalidationParam` (source lines 119–150): if any matched route's
module declares `shouldRevalidate` and the comma-joined loader-route id
lists for all matched routes vs. the `shouldLoad` ones differ, set the
`_routes` query parameter to the latter; otherwise return the URL
unchanged. -/
def addRevalidationParam (manifest : AssetsManifest) (routeModules : RouteModules)
    (routeMatches : List DataStrategyMatch) (u : Url) : Url :=
  if routeMatches.any (fun m => ((routeModules m.route.id).map (·.shouldRevalidate)).getD false) then
    let matchedIds := genRouteIds manifest (routeMatches.map (·.route.id))
    let loadIds := genRouteIds manifest ((routeMatches.filter (·.shouldLoad)).map (·.route.id))
    if matchedIds ≠ loadIds then { u with query := setParam u.query "_routes" loadIds } else u
  else u

/-- `singleFetchUrl` (source lines 152–156): rewrite the pathname to
`` `${pathname === "/" ? "_root" : pathname}.data` ``. -/
def singleFetchUrl (u : Url) : Url :=
  setPathname u ((if u.pathname = "/" then "_root" else u.pathname) ++ ".data")

/-- The full target-URL pipeline of `makeSingleFetchCall` (source lines
48–55): `singleFetchUrl(addRevalidationParam(..., stripIndexParam(url)))`. -/
def singleFetchLoaderUrl (manifest : AssetsManifest) (routeModules : RouteModules)
    (routeMatches : List DataStrategyMatch) (u : Url) : Url :=
  singleFetchUrl (addRevalidationParam manifest routeModules routeMatches (stripIndexParam u))

/-- Opaque JS values as far as this code observes them.  `jsError` is a
thrown `Error` with its message; `errorResponseImpl` is an instance of the
router package's `ErrorResponseImpl(status, statusText, data, internal)`;
`other` stands for any further opaque value. -/
inductive Val where
  | null
  | str (s : String)
  | num (n : Nat)
  | jsError (message : String)
  | errorResponseImpl (status : Nat) (statusText : String) (data : Val) (internal : Bool)
  | other (n : Nat)
deriving DecidableEq, Repr

/-- A value position in the turbo-stream wire format: either a plainly
encoded value, or a value tagged with `type = "ErrorResponse"` carrying the
serialized fields of a structured error response (`internal` is optional on
the wire, hence `Option Bool`). -/
inductive Encoded where
  | plain (v : Val)
  | errorResponseTag (status : Nat) (statusText : String) (data : Val) (internal : Option Bool)
deriving DecidableEq, Repr

/-- The decode plugin registered in `fetchAndDecode` (source lines 165–177):
a value tagged `"ErrorResponse"` is reconstructed as
`new ErrorResponseImpl(status, statusText, data, internal === true)`; any
other value passes through unchanged. -/
def reviveValue : Encoded → Val
  | .plain v => v
  | .errorResponseTag status statusText data internal =>
    .errorResponseImpl status statusText data (internal == some true)

/-- The fields of a redirect result (`{ redirect, status, revalidate,
reload }`); all four are plainly encoded on the wire. -/
structure RedirectResult where
  redirect : String
  status : Nat
  revalidate : Bool
  reload : Bool
deriving DecidableEq, Repr

/-- A decoded per-route result.  The TS type `SingleFetchResult` is the
union `{data} | {error} | {redirect,...}`, but the runtime discriminates by
key presence (`"error" in result` …), so the embedding is an object with
three optional fields; the declared union corresponds to exactly one field
being present. -/
structure SingleFetchResult where
  error? : Option Val
  redirect? : Option RedirectResult
  data? : Option Val
deriving DecidableEq, Repr

/-- A per-route result as it sits on the wire: the opaque `error` / `data`
positions may be tagged values that the decode plugin reconstructs. -/
structure EncodedSingleFetchResult where
  error? : Option Encoded
  redirect? : Option RedirectResult
  data? : Option Encoded
deriving DecidableEq, Repr

/-- Decoding one per-route result: the plugin is applied to the embedded
opaque value positions. -/
def decodeSingleFetchResult (e : EncodedSingleFetchResult) : SingleFetchResult :=
  { error? := e.error?.map reviveValue
    redirect? := e.redirect?
    data? := e.data?.map reviveValue }

/-- The TS type `SingleFetchResults`: route id → per-route result.  JS
object keys are unique and insertion-ordered, modelled by an association
list. -/
abbrev SingleFetchResults := List (String × SingleFetchResult)

/-- JS `String.prototype.includes`: `jsStringIncludes s pat` is true iff
`pat` occurs contiguously in `s`. -/
def includesAux (pat : List Char) : List Char → Bool
  | [] => pat.isEmpty
  | c :: rest => pat.isPrefixOf (c :: rest) || includesAux pat rest

/-- JS `s.includes(pat)`. -/
def jsStringIncludes (s pat : String) : Bool :=
  includesAux pat.data s.data

/-- The truthiness test `res.headers.get("Content-Type")?.includes("text/x-turbo")`
(source line 161): `none` models a missing header (`?.` yields `undefined`,
which is falsy). -/
def contentTypeIsTurbo : Option String → Bool
  | some ct => jsStringIncludes ct "text/x-turbo"
  | none => false

/-- The slice of a `fetch` response this code observes: the `Content-Type`
header and the (already framed) streamed body.  The loader path's body
decodes to a `SingleFetchResults` map. -/
structure Response where
  contentType : Option String
  body : List (String × EncodedSingleFetchResult)
deriving DecidableEq, Repr

/-- `fetchAndDecode` (source lines 158–180), specialized to the loader body
shape: assert the `Content-Type` marker, then decode the streamed body with
the `ErrorResponse` plugin.  `Modelled from the spec:` the `invariant`
helper is imported from `./invariant`, which is not among the provided
sources; per the spec it "fails fast (signals a protocol-mismatch error, not
a silent fallback)", i.e. it throws an `Error` with the given message when
the asserted condition is falsy.  A thrown error is an `Except.error`; the
network call itself is behind the `Response` value. -/
def fetchAndDecode (res : Response) : Except Val SingleFetchResults :=
  if contentTypeIsTurbo res.contentType then
    .ok (res.body.map (fun kv => (kv.1, decodeSingleFetchResult kv.2)))
  else
    .error (.jsError "Expected a text/x-turbo response")

/-- What one route observes when its per-route result is unwrapped: a plain
returned value, a thrown value, or the redirect `Response` built by the
router package's `redirect(location, { status, headers })` helper (an
external dependency producing a response carrying exactly the location,
status and headers it is given). -/
inductive UnwrapOutcome where
  | value (v : Val)
  | thrown (e : Val)
  | redirectResponse (location : String) (status : Nat) (headers : List (String × String))
deriving DecidableEq, Repr

/-- The `headers` record built in `unwrapSingleFetchResult` (source lines
186–192): the `X-Remix-Revalidate` marker is added when `revalidate` is set,
then the `X-Remix-Reload-Document` marker when `reload` is set. -/
def redirectHeaders (revalidate reload : Bool) : List (String × String) :=
  (if revalidate then [("X-Remix-Revalidate", "yes")] else []) ++
    (if reload then [("X-Remix-Reload-Document", "yes")] else [])

/-- `unwrapSingleFetchResult` (source lines 182–199): test the keys in the
order `error`, `redirect`, `data`; with none present, throw an `Error`
naming the route id. -/
def unwrapSingleFetchResult (result : SingleFetchResult) (routeId : String) : UnwrapOutcome :=
  match result.error? with
  | some e => .thrown e
  | none =>
    match result.redirect? with
    | some r => .redirectResponse r.redirect r.status (redirectHeaders r.revalidate r.reload)
    | none =>
      match result.data? with
      | some d => .value d
      | none => .thrown (.jsError ("No action response found for routeId \"" ++ routeId ++ "\""))

/-- The tail of the loader-path `singleFetch` closure (source lines 65–70):
look the route id up in the resolved results map; unwrap when present,
resolve to `null` when absent. -/
def singleFetchLoaderResult (results : SingleFetchResults) (routeId : String) : UnwrapOutcome :=
  match List.lookup routeId results with
  | some r => unwrapSingleFetchResult r routeId
  | none => .value .null

/-- Awaiting the shared `singleFetchPromise` and finishing the loader-path
`singleFetch` closure: a rejected shared promise rethrows its error to the
awaiting caller; a resolved one is looked up and unwrapped. -/
def awaitSingleFetch (shared : Except Val SingleFetchResults) (routeId : String) : UnwrapOutcome :=
  match shared with
  | .error e => .thrown e
  | .ok results => singleFetchLoaderResult results routeId

/-- The mutable state of one navigation's loader phase: the
`singleFetchPromise` memo cell (source line 43, `undefined` before first
use), plus an instrumentation counter of consolidated network calls
issued. -/
structure NavState where
  singleFetchPromise : Option (Except Val SingleFetchResults)
  fetchCalls : Nat
deriving Repr

/-- The state at the start of a navigation's loader phase: no promise, no
network call issued. -/
def initialNavState : NavState := { singleFetchPromise := none, fetchCalls := 0 }

/-- One invocation of the loader-path `singleFetch(routeId)` closure (source
lines 61–70).  `mkCall` is the settled outcome `makeSingleFetchCall()` would
produce for this navigation (issuing it increments the call counter).  The
`if (!singleFetchPromise)` check-and-assign runs with no intervening
`await`, so it is a single atomic step under JS's cooperative scheduling.
Returned alongside the new state: the shared outcome this caller awaits, and
the caller's observed result. -/
def singleFetch (mkCall : Except Val SingleFetchResults) (s : NavState) (routeId : String) :
    NavState × (Except Val SingleFetchResults × UnwrapOutcome) :=
  match s.singleFetchPromise with
  | some p => (s, (p, awaitSingleFetch p routeId))
  | none =>
    ({ singleFetchPromise := some mkCall, fetchCalls := s.fetchCalls + 1 },
      (mkCall, awaitSingleFetch mkCall routeId))

/-- A whole loader phase: the routes that choose to delegate invoke
`singleFetch` one after another (any interleaving of the cooperative
continuations is some such sequence, since each invocation's decision step
is atomic).  Produces the final state and, per caller, the shared outcome it
awaited and the result it observed. -/
def runLoaderPhase (mkCall : Except Val SingleFetchResults) :
    List String → NavState → NavState × List (Except Val SingleFetchResults × UnwrapOutcome)
  | [], s => (s, [])
  | routeId :: rest, s =>
    let step := singleFetch mkCall s routeId
    let next := runLoaderPhase mkCall rest step.1
    (next.1, step.2 :: next.2)

/-! ## Query-parameter list lemmas -/

theorem getAllParams_append (a b : List (String × String)) (n : String) :
    getAllParams (a ++ b) n = getAllParams a n ++ getAllParams b n := by
  induction a with
  | nil => rfl
  | cons kv rest ih =>
    obtain ⟨k, v⟩ := kv
    simp only [List.cons_append, getAllParams]
    split <;> simp [ih]

theorem deleteParam_append (a b : List (String × String)) (n : String) :
    deleteParam (a ++ b) n = deleteParam a n ++ deleteParam b n := by
  induction a with
  | nil => rfl
  | cons kv rest ih =>
    obtain ⟨k, v⟩ := kv
    simp only [List.cons_append, deleteParam]
    split <;> simp [ih]

theorem getAllParams_deleteParam_self (q : List (String × String)) (n : String) :
    getAllParams (deleteParam q n) n = [] := by
  induction q with
  | nil => rfl
  | cons kv rest ih =>
    obtain ⟨k, v⟩ := kv
    simp only [deleteParam]
    split
    next => exact ih
    next h => simp [getAllParams, h, ih]

theorem getAllParams_deleteParam_ne (q : List (String × String)) (n m : String)
    (h : m ≠ n) : getAllParams (deleteParam q n) m = getAllParams q m := by
  induction q with
  | nil => rfl
  | cons kv rest ih =>
    obtain ⟨k, v⟩ := kv
    simp only [deleteParam, getAllParams]
    split
    next hk =>
      subst hk
      simp [getAllParams, Ne.symm h, ih]
    next hk =>
      simp only [getAllParams]
      split <;> simp [ih]

theorem deleteParam_deleteParam_self (q : List (String × String)) (n : String) :
    deleteParam (deleteParam q n) n = deleteParam q n := by
  induction q with
  | nil => rfl
  | cons kv rest ih =>
    obtain ⟨k, v⟩ := kv
    simp only [deleteParam]
    split
    next => exact ih
    next h => simp [deleteParam, h, ih]

theorem getAllParams_map_pair_self (vs : List String) (n : String) :
    getAllParams (vs.map (fun v => (n, v))) n = vs := by
  induction vs with
  | nil => rfl
  | cons v rest ih => simp [getAllParams, ih]

theorem getAllParams_map_pair_ne (vs : List String) (n m : String) (h : m ≠ n) :
    getAllParams (vs.map (fun v => (n, v))) m = [] := by
  induction vs with
  | nil => rfl
  | cons v rest ih => simp [getAllParams, Ne.symm h, ih]

theorem deleteParam_map_pair_self (vs : List String) (n : String) :
    deleteParam (vs.map (fun v => (n, v))) n = [] := by
  induction vs with
  | nil => rfl
  | cons v rest ih => simp [deleteParam, ih]

theorem getAllParams_setParam_self (q : List (String × String)) (n v : String) :
    getAllParams (setParam q n v) n = [v] := by
  induction q with
  | nil => simp [setParam, getAllParams]
  | cons kv rest ih =>
    obtain ⟨k, w⟩ := kv
    simp only [setParam]
    split
    next => simp [getAllParams, getAllParams_deleteParam_self]
    next h => simp [getAllParams, h, ih]

theorem deleteParam_setParam_self (q : List (String × String)) (n v : String) :
    deleteParam (setParam q n v) n = deleteParam q n := by
  induction q with
  | nil => simp [setParam, deleteParam]
  | cons kv rest ih =>
    obtain ⟨k, w⟩ := kv
    simp only [setParam]
    split
    next h => simp [deleteParam, h, deleteParam_deleteParam_self]
    next h => simp [deleteParam, h, ih]

theorem foldl_append_pairs (vs : List String) (q0 : List (String × String)) (n : String) :
    vs.foldl (fun q v => q ++ [(n, v)]) q0 = q0 ++ vs.map (fun v => (n, v)) := by
  induction vs generalizing q0 with
  | nil => simp
  | cons v rest ih => simp [List.foldl, ih]

/-- `stripIndexParam` in closed form: the non-`index` entries in order,
followed by the non-empty `index` values re-appended in order. -/
theorem stripIndexParam_query (u : Url) :
    (stripIndexParam u).query
      = deleteParam u.query "index"
          ++ ((getAllParams u.query "index").filter (fun v => v != "")).map
              (fun v => ("index", v)) := by
  simp [stripIndexParam, foldl_append_pairs]

theorem stripIndexParam_origin (u : Url) : (stripIndexParam u).origin = u.origin := rfl

theorem stripIndexParam_pathname (u : Url) : (stripIndexParam u).pathname = u.pathname := rfl

/-! ## Loader-phase run lemmas -/

/-- Once the memo cell holds the shared outcome, further invocations neither
change the state nor issue network calls, and each observes that same
outcome. -/
theorem runLoaderPhase_of_set (mkCall : Except Val SingleFetchResults)
    (ids : List String) (c : Nat) :
    runLoaderPhase mkCall ids { singleFetchPromise := some mkCall, fetchCalls := c }
      = ({ singleFetchPromise := some mkCall, fetchCalls := c },
          ids.map (fun i => (mkCall, awaitSingleFetch mkCall i))) := by
  induction ids with
  | nil => rfl
  | cons i rest ih => simp [runLoaderPhase, singleFetch, ih]

/-- The observations of a whole loader phase from the initial state: every
caller awaits the one shared outcome. -/
theorem runLoaderPhase_initial (mkCall : Except Val SingleFetchResults) (ids : List String) :
    runLoaderPhase mkCall ids initialNavState
      = (if ids.isEmpty then initialNavState
          else { singleFetchPromise := some mkCall, fetchCalls := 1 },
          ids.map (fun i => (mkCall, awaitSingleFetch mkCall i))) := by
  cases ids with
  | nil => rfl
  | cons i rest =>
    simp [runLoaderPhase, singleFetch, initialNavState, runLoaderPhase_of_set]

/-! ## The claims -/

/-- C1: For every loader-phase (GET) navigation, however many matched routes
invoke the delegation function and in whatever order, exactly one
consolidated network call is issued (none when no route delegates — the
shared promise is created lazily on the first invocation), the memo cell is
assigned once and never re-created, and every invoking route awaits and
observes the identical resolved results map `mkCall`. -/
theorem claim1_loader_phase_single_network_call
    (mkCall : Except Val SingleFetchResults) (ids : List String) :
    (runLoaderPhase mkCall ids initialNavState).1.fetchCalls
        = (if ids.isEmpty then 0 else 1)
      ∧ (runLoaderPhase mkCall ids initialNavState).1.singleFetchPromise
        = (if ids.isEmpty then none else some mkCall)
      ∧ (runLoaderPhase mkCall ids initialNavState).2
        = ids.map (fun i => (mkCall, awaitSingleFetch mkCall i)) := by
  rw [runLoaderPhase_initial]
  cases ids <;> simp [initialNavState]

/-- C3: A response whose `Content-Type` does not include `text/x-turbo`
makes `fetchAndDecode` fail fast with the protocol-mismatch error, and in
any loader phase driven by that response every caller that awaits the shared
outcome observes that thrown error — never a partial or successful
result. -/
theorem claim3_content_type_mismatch (res : Response) (ids : List String)
    (h : contentTypeIsTurbo res.contentType = false) :
    fetchAndDecode res = .error (.jsError "Expected a text/x-turbo response")
      ∧ (runLoaderPhase (fetchAndDecode res) ids initialNavState).2
        = ids.map (fun _ =>
            (fetchAndDecode res,
              UnwrapOutcome.thrown (.jsError "Expected a text/x-turbo response"))) := by
  have hfd : fetchAndDecode res = .error (.jsError "Expected a text/x-turbo response") := by
    simp [fetchAndDecode, h]
  refine ⟨hfd, ?_⟩
  rw [runLoaderPhase_initial]
  simp [hfd, awaitSingleFetch]

/-- Witness for C3 at a concrete HTML response and two delegating routes. -/
theorem claim3_content_type_mismatch_witness :
    fetchAndDecode { contentType := some "text/html", body := [] }
        = .error (.jsError "Expected a text/x-turbo response")
      ∧ (runLoaderPhase (fetchAndDecode { contentType := some "text/html", body := [] })
            ["root", "routes/index"] initialNavState).2
        = [(fetchAndDecode { contentType := some "text/html", body := [] },
            UnwrapOutcome.thrown (.jsError "Expected a text/x-turbo response")),
           (fetchAndDecode { contentType := some "text/html", body := [] },
            UnwrapOutcome.thrown (.jsError "Expected a text/x-turbo response"))] :=
  claim3_content_type_mismatch { contentType := some "text/html", body := [] }
    ["root", "routes/index"] (by decide)

/-- C4: A loader invocation whose route id is absent from the resolved
results map resolves to the no-op `null` outcome; the absence is absorbed,
not raised. -/
theorem claim4_missing_loader_result (results : SingleFetchResults) (routeId : String)
    (h : List.lookup routeId results = none) :
    singleFetchLoaderResult results routeId = .value .null := by
  simp [singleFetchLoaderResult, h]

/-- Witness for C4: a map holding only `"root"`, queried for a route the
server scoped out. -/
theorem claim4_missing_loader_result_witness :
    singleFetchLoaderResult
        [("root", { error? := none, redirect? := none, data? := some (.str "x") })]
        "routes/index" = .value .null :=
  claim4_missing_loader_result
    [("root", { error? := none, redirect? := none, data? := some (.str "x") })]
    "routes/index" (by decide)

/-- C5: Unwrapping an action result with none of the `data` / `error` /
`redirect` tags throws an `Error` whose message names the offending route
id. -/
theorem claim5_missing_action_result (routeId : String) :
    unwrapSingleFetchResult { error? := none, redirect? := none, data? := none } routeId
      = .thrown (.jsError ("No action response found for routeId \"" ++ routeId ++ "\"")) :=
  rfl

/-- C6: A redirect-tagged result unwraps to a redirect outcome carrying the
result's target location and status; the `X-Remix-Revalidate` marker is
present iff `revalidate` is set and the `X-Remix-Reload-Document` marker iff
`reload` is set. -/
theorem claim6_redirect_unwrap (location : String) (status : Nat)
    (revalidate reload : Bool) (dat : Option Val) (routeId : String) :
    unwrapSingleFetchResult
        { error? := none
          redirect? := some
            { redirect := location, status := status
              revalidate := revalidate, reload := reload }
          data? := dat } routeId
      = .redirectResponse location status (redirectHeaders revalidate reload)
    ∧ ((("X-Remix-Revalidate", "yes") ∈ redirectHeaders revalidate reload)
        ↔ revalidate = true)
    ∧ ((("X-Remix-Reload-Document", "yes") ∈ redirectHeaders revalidate reload)
        ↔ reload = true) := by
  refine ⟨rfl, ?_, ?_⟩ <;> cases revalidate <;> cases reload <;> simp [redirectHeaders]

/-- C7: An error-tagged result re-raises exactly the decoded error value;
and when the decode plugin applies (the wire value is tagged
`"ErrorResponse"`), the raised value is the reconstructed
`ErrorResponseImpl` built from the encoded status, status text, data payload
and internal flag. -/
theorem claim7_error_unwrap :
    (∀ (e : Val) (red : Option RedirectResult) (dat : Option Val) (routeId : String),
        unwrapSingleFetchResult { error? := some e, redirect? := red, data? := dat } routeId
          = .thrown e)
      ∧ (∀ (status : Nat) (statusText : String) (data : Val) (internal : Option Bool)
            (red : Option RedirectResult) (dat : Option Encoded) (routeId : String),
          unwrapSingleFetchResult
              (decodeSingleFetchResult
                { error? := some (.errorResponseTag status statusText data internal)
                  redirect? := red, data? := dat }) routeId
            = .thrown (.errorResponseImpl status statusText data (internal == some true))) :=
  ⟨fun _ _ _ _ => rfl, fun _ _ _ _ _ _ _ => rfl⟩

/-- C8: Index-parameter normalization removes exactly the empty-valued
entries of the multi-valued `index` parameter, keeping the non-empty values
in their original relative order; in particular `?index=&index=abc` becomes
`?index=abc`. -/
theorem claim8_strip_index_param (u : Url) :
    getAllParams (stripIndexParam u).query "index"
        = (getAllParams u.query "index").filter (fun v => v != "")
      ∧ stripIndexParam
          { origin := "https://example.com", pathname := "/"
            query := [("index", ""), ("index", "abc")] }
        = { origin := "https://example.com", pathname := "/"
            query := [("index", "abc")] } := by
  constructor
  · rw [stripIndexParam_query, getAllParams_append, getAllParams_deleteParam_self,
      getAllParams_map_pair_self]
    rfl
  · decide

/-- C9: The target-URL path transform sends the root path `/` to the literal
sentinel path `/_root.data` and any other path to itself with the fixed
`.data` suffix appended. -/
theorem claim9_single_fetch_url (u : Url) (h : u.pathname.data.head? = some '/') :
    (singleFetchUrl u).pathname
      = (if u.pathname = "/" then "/_root.data" else u.pathname ++ ".data") := by
  by_cases hroot : u.pathname = "/"
  · simp [singleFetchUrl, setPathname, normalizePath, hroot]
  · have hhead : (u.pathname ++ ".data").data.head? = some '/' := by
      rw [String.data_append]
      cases hp : u.pathname.data with
      | nil => rw [hp] at h; simp at h
      | cons c cs =>
        rw [hp] at h
        simp only [List.head?_cons, Option.some.injEq] at h
        simp [h]
    simp only [singleFetchUrl, setPathname, normalizePath, if_neg hroot]
    rw [if_pos hhead]

/-- C2 (amended): for a loader request whose URL does not already carry the
`_routes` parameter, the consolidated URL carries `_routes` iff some matched
route's module declares `shouldRevalidate` and the two comma-joined
loader-route id strings (all matches vs. the `shouldLoad` matches) differ —
the source compares the joined strings, not the id sets — and when the
parameter is present its single value is exactly the comma-joined,
order-preserving list of `shouldLoad` ids restricted to routes with a
server data step. -/
theorem claim2_revalidation_param (manifest : AssetsManifest) (routeModules : RouteModules)
    (routeMatches : List DataStrategyMatch) (u : Url)
    (h : getAllParams u.query "_routes" = []) :
    getAllParams (singleFetchLoaderUrl manifest routeModules routeMatches u).query "_routes"
      = (if (routeMatches.any (fun m =>
              ((routeModules m.route.id).map (·.shouldRevalidate)).getD false))
            ∧ genRouteIds manifest (routeMatches.map (·.route.id))
              ≠ genRouteIds manifest ((routeMatches.filter (·.shouldLoad)).map (·.route.id))
          then [genRouteIds manifest ((routeMatches.filter (·.shouldLoad)).map (·.route.id))]
          else []) := by
  have hstrip : getAllParams (stripIndexParam u).query "_routes" = [] := by
    rw [stripIndexParam_query, getAllParams_append,
      getAllParams_deleteParam_ne _ _ _ (by decide), h,
      getAllParams_map_pair_ne _ _ _ (by decide)]
    rfl
  have hsf : ∀ v : Url, (singleFetchUrl v).query = v.query := fun _ => rfl
  simp only [singleFetchLoaderUrl]
  rw [hsf]
  simp only [addRevalidationParam]
  by_cases hany : routeMatches.any (fun m =>
      ((routeModules m.route.id).map (·.shouldRevalidate)).getD false) = true
  · rw [if_pos hany]
    by_cases hne : genRouteIds manifest (routeMatches.map (·.route.id))
        ≠ genRouteIds manifest ((routeMatches.filter (·.shouldLoad)).map (·.route.id))
    · rw [if_pos hne, if_pos ⟨hany, hne⟩]
      exact getAllParams_setParam_self _ _ _
    · rw [if_neg hne, if_neg (fun hc => hne hc.2)]
      exact hstrip
  · rw [if_neg hany, if_neg (fun hc => hany hc.1)]
    exact hstrip

/-- Witness for C2: two matched routes with loaders, both with
`shouldRevalidate`, only `root` marked `shouldLoad` — the consolidated URL
carries `_routes=root`. -/
theorem claim2_revalidation_param_witness :
    getAllParams (singleFetchLoaderUrl
        { routes := fun _ => { hasLoader := true } }
        (fun _ => some { shouldRevalidate := true })
        [{ route := { id := "root" }, shouldLoad := true },
          { route := { id := "routes/index" }, shouldLoad := false }]
        { origin := "https://example.com", pathname := "/", query := [] }).query "_routes"
      = ["root"] := by
  have h := claim2_revalidation_param
    { routes := fun _ => { hasLoader := true } }
    (fun _ => some { shouldRevalidate := true })
    [{ route := { id := "root" }, shouldLoad := true },
      { route := { id := "routes/index" }, shouldLoad := false }]
    { origin := "https://example.com", pathname := "/", query := [] } rfl
  rw [h]
  decide

/-- C2 counterexample to the claim as stated: a single matched route whose
identifier is the empty string, with a loader and `shouldRevalidate`, not
marked `shouldLoad`.  The set of matched ids with a server data step is
`{""}` and the `shouldLoad` set is `∅` — the sets differ, and a hook is
declared, so the claim requires the scoping parameter to be attached — yet
both sets comma-join to the empty string, so the code compares equal strings
and omits the parameter. -/
theorem claim2_set_comparison_counterexample :
    (([{ route := { id := "" }, shouldLoad := false }] : List DataStrategyMatch).any
        (fun m => ((((fun _ => some { shouldRevalidate := true }) : RouteModules) m.route.id).map
            (·.shouldRevalidate)).getD false) = true)
      ∧ ((([{ route := { id := "" }, shouldLoad := false }] : List DataStrategyMatch).map
            (·.route.id)).filter
              (fun id =>
                (({ routes := fun _ => { hasLoader := true } } : AssetsManifest).routes id).hasLoader)).toFinset
          ≠ (((([{ route := { id := "" }, shouldLoad := false }] : List DataStrategyMatch).filter
                (·.shouldLoad)).map (·.route.id)).filter
              (fun id =>
                (({ routes := fun _ => { hasLoader := true } } : AssetsManifest).routes id).hasLoader)).toFinset
      ∧ getAllParams (singleFetchLoaderUrl
            { routes := fun _ => { hasLoader := true } }
            (fun _ => some { shouldRevalidate := true })
            [{ route := { id := "" }, shouldLoad := false }]
            { origin := "https://example.com", pathname := "/", query := [] }).query "_routes"
          = [] := by
  refine ⟨rfl, ?_, rfl⟩
  decide

/-- C10: each target-URL transform changes nothing outside its stated
scope — `stripIndexParam` keeps the origin, the pathname and all
non-`index` query entries (in order); `addRevalidationParam` keeps the
origin, the pathname and all non-`_routes` query entries;
`singleFetchUrl` keeps the origin and the whole query string. -/
theorem claim10_transform_frame :
    (∀ u : Url, (stripIndexParam u).origin = u.origin
        ∧ (stripIndexParam u).pathname = u.pathname
        ∧ deleteParam (stripIndexParam u).query "index" = deleteParam u.query "index")
      ∧ (∀ (manifest : AssetsManifest) (routeModules : RouteModules)
            (routeMatches : List DataStrategyMatch) (u : Url),
          (addRevalidationParam manifest routeModules routeMatches u).origin = u.origin
            ∧ (addRevalidationParam manifest routeModules routeMatches u).pathname = u.pathname
            ∧ deleteParam (addRevalidationParam manifest routeModules routeMatches u).query "_routes"
              = deleteParam u.query "_routes")
      ∧ (∀ u : Url, (singleFetchUrl u).origin = u.origin ∧ (singleFetchUrl u).query = u.query) := by
  refine ⟨fun u => ⟨rfl, rfl, ?_⟩, fun manifest rM rMs u => ?_, fun u => ⟨rfl, rfl⟩⟩
  · rw [stripIndexParam_query, deleteParam_append, deleteParam_deleteParam_self,
      deleteParam_map_pair_self]
    simp
  · simp only [addRevalidationParam]
    split
    · split
      · exact ⟨rfl, rfl, deleteParam_setParam_self _ _ _⟩
      · exact ⟨rfl, rfl, rfl⟩
    · exact ⟨rfl, rfl, rfl⟩

/-- Witness for C9 at the concrete navigation path `/foo/bar`. -/
theorem claim9_single_fetch_url_witness :
    (singleFetchUrl { origin := "https://example.com", pathname := "/foo/bar", query := [] }).pathname
      = "/foo/bar.data" := by
  have h := claim9_single_fetch_url
    { origin := "https://example.com", pathname := "/foo/bar", query := [] } (by decide)
  simpa using h

end Remix
